import Mathlib

/-!
# Verification of the SSD300 model-construction core (`keras_ssd300.py`)

This file is a shallow embedding of the configuration handling, anchor-box
wiring and multi-scale assembly performed by the function `ssd_300` in
`keras_ssd300.py`, together with theorems settling the specification claims.

Modelling choices:
* Real-valued quantities (scales, aspect ratios, variances, tensor entries)
  are modelled as rationals `ℚ`.
* A Keras/TensorFlow tensor of shape `(h, w, d)` (one batch element) is a
  nested list `List (List (List α))`; `Reshape((-1, n))` is row-major
  flattening followed by regrouping into rows of width `n`, which is exactly
  TensorFlow's row-major reshape semantics on a tensor whose size is a
  multiple of `n`.
* Python `None`-able arguments are `Option`s; Python truthiness of a list
  argument (`if xs:`) is `truthy` below (`None` and `[]` are falsy).
* A raised Python exception is an `Except.error`; `ValueError` (the spec's
  `ConfigError`) and `TypeError` are distinguished.
-/

namespace SSD

/-! ## Tensors and row-major reshaping -/

/-- A rank-3 tensor `(height, width, depth)` for one batch element,
stored row-major as nested lists. -/
abbrev Tensor3 (α : Type) := List (List (List α))

/-- Well-formedness: the tensor really has shape `(h, w, d)`. -/
def wf3 {α : Type} (h w d : ℕ) (t : Tensor3 α) : Prop :=
  t.length = h ∧ ∀ row ∈ t, row.length = w ∧ ∀ cell ∈ row, cell.length = d

instance {α : Type} (h w d : ℕ) (t : Tensor3 α) : Decidable (wf3 h w d t) :=
  decidable_of_iff
    (t.length = h ∧ ∀ row ∈ t, row.length = w ∧ ∀ cell ∈ row, cell.length = d)
    Iff.rfl

/-- Row-major flattening of a rank-3 tensor (TensorFlow memory order:
rows top-to-bottom, columns left-to-right, then channel index). -/
def flatten3 {α : Type} (t : Tensor3 α) : List α :=
  t.flatten.flatten

/-- Regroup a flat list into rows of width `n`: the semantics of
`Reshape((-1, n))` on a tensor whose total size is a multiple of `n`
(row `i` holds flat elements `[i*n, (i+1)*n)`). -/
def chunk {α : Type} (n : ℕ) (l : List α) : List (List α) :=
  (List.range (l.length / n)).map (fun i => (l.drop (i * n)).take n)

/-- `Reshape((-1, n))` applied to a rank-3 layer output, as in lines
250-270 of `keras_ssd300.py`. -/
def reshapeRows {α : Type} (n : ℕ) (t : Tensor3 α) : List (List α) :=
  chunk n (flatten3 t)

/-- The box `j` slice of depth `m` at grid cell `(r, c)` of a rank-3
tensor whose depth axis packs `k` boxes of `m` entries each. -/
def boxSlice {α : Type} (m : ℕ) (t : Tensor3 α) (r c j : ℕ) : List α :=
  (((t.getD r []).getD c []).drop (j * m)).take m

theorem chunk_length {α : Type} (n m : ℕ) (l : List α) (hn : 0 < n)
    (hl : l.length = m * n) : (chunk n l).length = m := by
  simp [chunk, hl, Nat.mul_div_cancel _ hn]

theorem chunk_getElem? {α : Type} (n : ℕ) (l : List α) (i : ℕ)
    (hi : i < l.length / n) :
    (chunk n l)[i]? = some ((l.drop (i * n)).take n) := by
  simp [chunk, List.getElem?_range hi]

theorem chunk_row_length {α : Type} (n m : ℕ) (l : List α) (hn : 0 < n)
    (hl : l.length = m * n) : ∀ r ∈ chunk n l, r.length = n := by
  intro r hr
  simp only [chunk, List.mem_map, List.mem_range] at hr
  obtain ⟨i, hi, rfl⟩ := hr
  rw [hl, Nat.mul_div_cancel _ hn] at hi
  have hle : i * n + n ≤ m * n := by
    calc i * n + n = (i + 1) * n := by ring
      _ ≤ m * n := Nat.mul_le_mul_right n (by omega)
  simp only [List.length_take, List.length_drop, hl]
  omega

theorem flatten_length_uniform {α : Type} (d : ℕ) (l : List (List α))
    (hd : ∀ x ∈ l, x.length = d) : l.flatten.length = l.length * d := by
  rw [List.length_flatten, List.map_congr_left hd]
  simp [List.map_const', mul_comm]

theorem flatten_drop_uniform {α : Type} (d : ℕ) :
    ∀ (l : List (List α)), (∀ x ∈ l, x.length = d) →
      ∀ i, i ≤ l.length → l.flatten.drop (i * d) = (l.drop i).flatten := by
  intro l
  induction l with
  | nil =>
    intro _ i hi
    simp only [List.length_nil, Nat.le_zero] at hi
    subst hi
    simp
  | cons a tl ih =>
    intro hd i _
    have ha : a.length = d := hd a (List.mem_cons_self a tl)
    cases i with
    | zero => simp
    | succ i' =>
      have hstep : (i' + 1) * d = a.length + i' * d := by rw [ha]; ring
      rw [List.flatten_cons, hstep, ← List.drop_drop, List.drop_left]
      by_cases hi' : i' ≤ tl.length
      · rw [ih (fun x hx => hd x (List.mem_cons_of_mem a hx)) i' hi']
        simp
      · have h1 : tl.drop i' = [] := List.drop_eq_nil_of_le (by omega)
        have h2 : tl.flatten.drop (i' * d) = [] := by
          apply List.drop_eq_nil_of_le
          rw [flatten_length_uniform d tl (fun x hx => hd x (List.mem_cons_of_mem a hx))]
          exact Nat.mul_le_mul_right d (by omega)
        simp [h1, h2]

theorem flatten_slice_uniform {α : Type} (d : ℕ) (l : List (List α))
    (hd : ∀ x ∈ l, x.length = d) (i : ℕ) (hi : i < l.length)
    (off len : ℕ) (hol : off + len ≤ d) :
    (l.flatten.drop (i * d + off)).take len = ((l.getD i []).drop off).take len := by
  rw [← List.drop_drop, flatten_drop_uniform d l hd i (Nat.le_of_lt hi)]
  have hget : l.getD i [] = l[i] := by
    rw [List.getD_eq_getElem?_getD, List.getElem?_eq_getElem hi]
    rfl
  rw [List.drop_eq_getElem_cons hi, List.flatten_cons, hget]
  have hlen : (l[i] : List α).length = d := hd _ (List.getElem_mem hi)
  rw [List.drop_append_of_le_length (by omega),
    List.take_append_of_le_length (by rw [List.length_drop, hlen]; omega)]

theorem wf3_flatten_cells {α : Type} (h w d : ℕ) (t : Tensor3 α)
    (ht : wf3 h w d t) :
    t.flatten.length = h * w ∧ ∀ cell ∈ t.flatten, cell.length = d := by
  obtain ⟨hth, htr⟩ := ht
  constructor
  · rw [flatten_length_uniform w t (fun row hr => (htr row hr).1), hth]
  · intro cell hc
    rw [List.mem_flatten] at hc
    obtain ⟨row, hrow, hc'⟩ := hc
    exact (htr row hrow).2 cell hc'

theorem flatten3_length {α : Type} (h w d : ℕ) (t : Tensor3 α)
    (ht : wf3 h w d t) : (flatten3 t).length = h * w * d := by
  obtain ⟨hc, hu⟩ := wf3_flatten_cells h w d t ht
  unfold flatten3
  rw [flatten_length_uniform d t.flatten hu, hc]

theorem reshapeRows_length {α : Type} (n h w k : ℕ) (t : Tensor3 α)
    (hn : 0 < n) (ht : wf3 h w (k * n) t) :
    (reshapeRows n t).length = h * w * k := by
  have hflat : (flatten3 t).length = h * w * k * n := by
    rw [flatten3_length h w (k * n) t ht]; ring
  exact chunk_length n (h * w * k) (flatten3 t) hn hflat

theorem reshapeRows_row_length {α : Type} (n h w k : ℕ) (t : Tensor3 α)
    (hn : 0 < n) (ht : wf3 h w (k * n) t) :
    ∀ r ∈ reshapeRows n t, r.length = n := by
  have hflat : (flatten3 t).length = h * w * k * n := by
    rw [flatten3_length h w (k * n) t ht]; ring
  exact chunk_row_length n (h * w * k) (flatten3 t) hn hflat

/-- The central row-major indexing fact: in `Reshape((-1, n))` of a
`(h, w, k*n)` tensor, row `(r*w + c)*k + j` is exactly the depth slice
`[j*n, (j+1)*n)` of grid cell `(r, c)`. -/
theorem reshapeRows_getElem? {α : Type} (n h w k : ℕ) (t : Tensor3 α)
    (hn : 0 < n) (ht : wf3 h w (k * n) t) (r c j : ℕ)
    (hr : r < h) (hc : c < w) (hj : j < k) :
    (reshapeRows n t)[((r * w + c) * k + j)]? = some (boxSlice n t r c j) := by
  obtain ⟨hcells, hucells⟩ := wf3_flatten_cells h w (k * n) t ht
  obtain ⟨hth, htr⟩ := ht
  have htl : r < t.length := by omega
  have hrowlen : (t[r]).length = w := (htr _ (List.getElem_mem htl)).1
  have hrc : r * w + c < h * w := by
    calc r * w + c < r * w + w := by omega
      _ = (r + 1) * w := by ring
      _ ≤ h * w := Nat.mul_le_mul_right w (by omega)
  have hidx : (r * w + c) * k + j < h * w * k := by
    calc (r * w + c) * k + j < (r * w + c) * k + k := by omega
      _ = (r * w + c + 1) * k := by ring
      _ ≤ h * w * k := Nat.mul_le_mul_right k (by omega)
  have hflat : (flatten3 t).length = (h * w * k) * n := by
    rw [flatten3_length h w (k * n) t ⟨hth, htr⟩]; ring
  rw [reshapeRows,
    chunk_getElem? n (flatten3 t) _ (by rw [hflat, Nat.mul_div_cancel _ hn]; exact hidx)]
  congr 1
  have harith : ((r * w + c) * k + j) * n = (r * w + c) * (k * n) + j * n := by ring
  rw [harith]
  unfold flatten3
  rw [flatten_slice_uniform (k * n) t.flatten hucells (r * w + c)
    (by rw [hcells]; exact hrc) (j * n) n
    (by calc j * n + n = (j + 1) * n := by ring
      _ ≤ k * n := Nat.mul_le_mul_right n (by omega))]
  -- identify the cell at flat index `r*w + c` with `t[r][c]`
  have hcellget : t.flatten.getD (r * w + c) [] = (t[r]).getD c [] := by
    have hfd : t.flatten.drop (r * w) = (t.drop r).flatten :=
      flatten_drop_uniform w t (fun row hr' => (htr row hr').1) r (by omega)
    have hgd : t.flatten.getD (r * w + c) [] = (t.flatten.drop (r * w)).getD c [] := by
      rw [List.getD_eq_getElem?_getD, List.getD_eq_getElem?_getD, List.getElem?_drop,
        Nat.add_comm (r * w) c]
    rw [hgd, hfd, List.drop_eq_getElem_cons htl, List.flatten_cons,
      List.getD_eq_getElem?_getD, List.getElem?_append_left (by rw [hrowlen]; omega),
      ← List.getD_eq_getElem?_getD]
  have hgr : t.getD r [] = t[r] := by
    rw [List.getD_eq_getElem?_getD, List.getElem?_eq_getElem htl]
    rfl
  rw [hcellget, boxSlice, hgr]

/-! ## Configuration handling of `ssd_300` (lines 8-157)

The validation and bookkeeping code of `ssd_300` up to the start of network
construction (line 164) is embedded as a pure function returning either a
raised exception or the processed configuration that parametrises the
network. Every check appears in the same order as in the source.
-/

/-- The exceptions `ssd_300` can raise during configuration validation.
`ValueError` (the spec's `ConfigError`) carries which check failed. -/
inductive ConfigFault : Type where
  /-- line 96: both aspect-ratio arguments are `None` -/
  | aspect_both_none : ConfigFault
  /-- line 99: `len(aspect_ratios_per_layer) != 6` -/
  | aspect_per_layer_len : ℕ → ConfigFault
  /-- line 145: neither `(min_scale, max_scale)` nor `scales` specified -/
  | scales_unspecified : ConfigFault
  /-- line 148: `len(scales) != 7` -/
  | scales_len : ℕ → ConfigFault
  /-- line 153: `len(variances) != 4` -/
  | variances_len : ℕ → ConfigFault
  /-- line 156: some variance is `<= 0` -/
  | variances_nonpos : ConfigFault
deriving DecidableEq

/-- A raised Python exception: `ValueError` (spec: `ConfigError`) or a
`TypeError` from operating on `None` (e.g. `1 in None`, `np.linspace(None, ...)`). -/
inductive PyExn : Type where
  | valueError : ConfigFault → PyExn
  | typeError : PyExn
deriving DecidableEq

/-- The arguments of `ssd_300` (lines 8-23). optional arguments not yet
substituted by their defaults. `image_size = (height, width, channels)`. -/
structure SSDConfig : Type where
  img_height : ℕ
  img_width : ℕ
  img_channels : ℕ
  n_classes : ℕ
  min_scale : Option ℚ
  max_scale : Option ℚ
  scales : Option (List ℚ)
  aspect_ratios_global : Option (List ℚ)
  aspect_ratios_per_layer : Option (List (List ℚ))
  two_boxes_for_ar1 : Bool
  limit_boxes : Bool
  variances : List ℚ
deriving DecidableEq

/-- Python truthiness of an optional list: `None` and `[]` are falsy. -/
def truthy {β : Type} : Option (List β) → Bool
  | none => false
  | some l => !l.isEmpty

/-- `np.linspace a b num` for `num ≥ 2` (line 151): `num` evenly spaced
values from `a` to `b` inclusive. -/
def linspace (a b : ℚ) (num : ℕ) : List ℚ :=
  (List.range num).map (fun (i : ℕ) => a + (i : ℚ) * ((b - a) / ((num - 1 : ℕ) : ℚ)))

/-- `n_classifier_layers = 6` (line 94). -/
def n_classifier_layers : ℕ := 6

/-- Boxes per cell for one aspect-ratio list (lines 122-125 / 133-136):
`len + 1` if `1 ∈ aspect_ratios` and `two_boxes_for_ar1`, else `len`. -/
def boxesPerLayer (two_boxes_for_ar1 : Bool) (ar : List ℚ) : ℕ :=
  if (1 : ℚ) ∈ ar ∧ two_boxes_for_ar1 then ar.length + 1 else ar.length

/-- Scale/ratio parameters handed to the `AnchorBoxes` layer of one
classifier layer (lines 233-244). -/
structure AnchorLayerParams : Type where
  this_scale : ℚ
  next_scale : ℚ
  aspect_ratios : List ℚ
deriving DecidableEq

/-- The subscripts into `scales` used by the six `AnchorBoxes` calls
(lines 233-244): layer `i` reads `scales[i]` as `this_scale` and
`scales[i+1]` as `next_scale`. -/
def scale_index_pairs : List (ℕ × ℕ) :=
  [(0, 1), (1, 2), (2, 3), (3, 4), (4, 5), (5, 6)]

/-- The processed configuration reaching network construction, plus the
derived quantities the network is built from. -/
structure SSD300Model : Type where
  /-- resolved per-layer aspect-ratio lists (lines 102-116) -/
  aspect_ratios : List (List ℚ)
  /-- boxes per cell for the six classifier layers (lines 118-142) -/
  n_boxes : List ℕ
  /-- the scale sequence actually used (lines 144-151) -/
  scales : List ℚ
  /-- validated variances (lines 153-157) -/
  variances : List ℚ
  /-- output channels of the six confidence convolutions (lines 215-220) -/
  conf_channels : List ℕ
  /-- output channels of the six localization convolutions (lines 223-228) -/
  loc_channels : List ℕ
  /-- per-layer `AnchorBoxes` parameters (lines 233-244) -/
  anchor_params : List AnchorLayerParams
  /-- spatial `(height, width)` of the six classifier layers (lines 315-320) -/
  classifier_sizes : List (ℕ × ℕ)
deriving DecidableEq

/-- Spatial output size of a `'same'`-padded convolution or pooling with
the given stride (Keras/TensorFlow shape inference: `ceil(n / stride)`). -/
def out_same (stride n : ℕ) : ℕ := (n + stride - 1) / stride

/-- Spatial output size of a `'valid'`-padded stride-1 convolution with
the given kernel size (Keras shape inference: `n - kernel + 1`). -/
def out_valid (kernel n : ℕ) : ℕ := n - kernel + 1

/-- Spatial size of `conv4_3` for input size `n`: the stride-1 `'same'`
convolutions `conv1_1 ... conv4_3` preserve size, `pool1`, `pool2`,
`pool3` are 2x2/stride-2/`'same'` (lines 169-184). -/
def conv4_3_dim (n : ℕ) : ℕ := out_same 2 (out_same 2 (out_same 2 n))

/-- Spatial size of `fc7`: `pool4` (stride 2), then `conv5_*`, `pool5`
(3x3 stride 1 `'same'`), `fc6`, `fc7` all preserve size (lines 185-194). -/
def fc7_dim (n : ℕ) : ℕ := out_same 1 (out_same 2 (conv4_3_dim n))

/-- Spatial size of `conv6_2`: `conv6_1` preserves size, `conv6_2` is
3x3 stride-2 `'same'` (lines 196-197). -/
def conv6_2_dim (n : ℕ) : ℕ := out_same 2 (fc7_dim n)

/-- Spatial size of `conv7_2`: 3x3 stride-2 `'same'` (lines 199-200). -/
def conv7_2_dim (n : ℕ) : ℕ := out_same 2 (conv6_2_dim n)

/-- Spatial size of `conv8_2`: 3x3 stride-1 `'valid'` (lines 202-203). -/
def conv8_2_dim (n : ℕ) : ℕ := out_valid 3 (conv7_2_dim n)

/-- Spatial size of `conv9_2`: 3x3 stride-1 `'valid'` (lines 205-206). -/
def conv9_2_dim (n : ℕ) : ℕ := out_valid 3 (conv8_2_dim n)

/-- The `(height, width)` spatial shapes of the six classifier layers
read back through `_keras_shape` (lines 315-320), computed by the
backbone's shape inference from the input image size. -/
def classifier_sizes_of (h w : ℕ) : List (ℕ × ℕ) :=
  [(conv4_3_dim h, conv4_3_dim w),
   (fc7_dim h, fc7_dim w),
   (conv6_2_dim h, conv6_2_dim w),
   (conv7_2_dim h, conv7_2_dim w),
   (conv8_2_dim h, conv8_2_dim w),
   (conv9_2_dim h, conv9_2_dim w)]

/-- Resolution of the per-layer aspect-ratio lists (lines 102-116) and
of `n_boxes` (lines 118-142). In the falsy-`aspect_ratios_per_layer`
branch, `1 in aspect_ratios_global` with `aspect_ratios_global = None`
raises a `TypeError` (line 133). -/
def resolveAspectRatios (cfg : SSDConfig) : Except PyExn (List (List ℚ)) :=
  if truthy cfg.aspect_ratios_per_layer then
    .ok (cfg.aspect_ratios_per_layer.getD [])
  else
    match cfg.aspect_ratios_global with
    | some g => .ok (List.replicate n_classifier_layers g)
    | none => .error .typeError

/-- The scale sequence (lines 144-151): a truthy `scales` argument is
length-checked and used as-is; otherwise `np.linspace(min_scale,
max_scale, 7)` (a `TypeError` if either bound is `None`). -/
def resolveScales (cfg : SSDConfig) : Except PyExn (List ℚ) :=
  if truthy cfg.scales then
    if (cfg.scales.getD []).length ≠ n_classifier_layers + 1 then
      .error (.valueError (.scales_len (cfg.scales.getD []).length))
    else .ok (cfg.scales.getD [])
  else
    match cfg.min_scale, cfg.max_scale with
    | some a, some b => .ok (linspace a b (n_classifier_layers + 1))
    | _, _ => .error .typeError

/-- `n_boxes` (lines 118-142): boxes per cell, one count per classifier
layer, from the resolved aspect-ratio lists. -/
def nBoxesOf (two_boxes_for_ar1 : Bool) (ars : List (List ℚ)) : List ℕ :=
  ars.map (boxesPerLayer two_boxes_for_ar1)

/-- Output channel counts of the six confidence convolutions
(lines 215-220): `n_boxes_i * n_classes`. -/
def confChannelsOf (n_classes : ℕ) (nb : List ℕ) : List ℕ :=
  [nb.getD 0 0 * n_classes, nb.getD 1 0 * n_classes, nb.getD 2 0 * n_classes,
   nb.getD 3 0 * n_classes, nb.getD 4 0 * n_classes, nb.getD 5 0 * n_classes]

/-- Output channel counts of the six localization convolutions
(lines 223-228): `n_boxes_i * 4`. -/
def locChannelsOf (nb : List ℕ) : List ℕ :=
  [nb.getD 0 0 * 4, nb.getD 1 0 * 4, nb.getD 2 0 * 4,
   nb.getD 3 0 * 4, nb.getD 4 0 * 4, nb.getD 5 0 * 4]

/-- The six `AnchorBoxes` parameter blocks (lines 233-244): layer `i`
receives `scales[i]` and `scales[i+1]` and its resolved ratio list. -/
def anchorParamsOf (sc : List ℚ) (ars : List (List ℚ)) : List AnchorLayerParams :=
  [⟨sc.getD 0 0, sc.getD 1 0, ars.getD 0 []⟩,
   ⟨sc.getD 1 0, sc.getD 2 0, ars.getD 1 []⟩,
   ⟨sc.getD 2 0, sc.getD 3 0, ars.getD 2 []⟩,
   ⟨sc.getD 3 0, sc.getD 4 0, ars.getD 3 []⟩,
   ⟨sc.getD 4 0, sc.getD 5 0, ars.getD 4 []⟩,
   ⟨sc.getD 5 0, sc.getD 6 0, ars.getD 5 []⟩]

/-- The model-construction function `ssd_300` (lines 8-322): validation
and derived network parameters, in source order. An `Except.error` means
the Python call raises before any network tensor is built; `.ok` carries
everything the network construction is parametrised by, including the
returned `classifier_sizes`. -/
def ssd_300 (cfg : SSDConfig) : Except PyExn SSD300Model :=
  -- line 96: both aspect-ratio arguments `None`
  if cfg.aspect_ratios_global.isNone ∧ cfg.aspect_ratios_per_layer.isNone then
    .error (.valueError .aspect_both_none)
  -- lines 98-100: truthy per-layer list must have length 6
  else if truthy cfg.aspect_ratios_per_layer ∧
      (cfg.aspect_ratios_per_layer.getD []).length ≠ n_classifier_layers then
    .error (.valueError (.aspect_per_layer_len (cfg.aspect_ratios_per_layer.getD []).length))
  else
    match resolveAspectRatios cfg with
    | .error e => .error e
    | .ok ars =>
      -- lines 145-146: neither `scales` nor both `min_scale`, `max_scale`
      if (cfg.min_scale.isNone ∨ cfg.max_scale.isNone) ∧ cfg.scales.isNone then
        .error (.valueError .scales_unspecified)
      else
        match resolveScales cfg with
        | .error e => .error e
        | .ok sc =>
          -- lines 153-157: exactly 4 variances, all positive
          if cfg.variances.length ≠ 4 then
            .error (.valueError (.variances_len cfg.variances.length))
          else if cfg.variances.any (fun v => v ≤ 0) then
            .error (.valueError .variances_nonpos)
          else
            .ok
              { aspect_ratios := ars
                n_boxes := nBoxesOf cfg.two_boxes_for_ar1 ars
                scales := sc
                variances := cfg.variances
                conf_channels := confChannelsOf cfg.n_classes (nBoxesOf cfg.two_boxes_for_ar1 ars)
                loc_channels := locChannelsOf (nBoxesOf cfg.two_boxes_for_ar1 ars)
                anchor_params := anchorParamsOf sc ars
                classifier_sizes := classifier_sizes_of cfg.img_height cfg.img_width }

/-- The default `aspect_ratios_per_layer` argument (lines 14-19): the
original SSD300 per-layer ratios. -/
def default_aspect_ratios_per_layer : List (List ℚ) :=
  [[1/2, 1, 2],
   [1/3, 1/2, 1, 2, 3],
   [1/3, 1/2, 1, 2, 3],
   [1/3, 1/2, 1, 2, 3],
   [1/2, 1, 2],
   [1/2, 1, 2]]

/-- A call of `ssd_300 (image_size, n_classes)` with every optional
argument left at its Python default (lines 10-23). -/
def defaultConfig (h w c n_classes : ℕ) : SSDConfig :=
  { img_height := h
    img_width := w
    img_channels := c
    n_classes := n_classes
    min_scale := some (1/10)
    max_scale := some (9/10)
    scales := none
    aspect_ratios_global := none
    aspect_ratios_per_layer := some default_aspect_ratios_per_layer
    two_boxes_for_ar1 := true
    limit_boxes := false
    variances := [1/10, 1/10, 1/5, 1/5] }

/-- Total number of anchor boxes of a built model:
`Σ_i n_boxes_i * h_i * w_i`. -/
def total_boxes (m : SSD300Model) : ℕ :=
  ((m.n_boxes.zip m.classifier_sizes).map (fun p => p.1 * p.2.1 * p.2.2)).sum

/-! ## Multi-scale assembly (lines 246-306)

One batch element. Each `Reshape((-1, n))` output is modelled by
`reshapeRows n`; `Concatenate(axis=1)` is list append of the box
sequences (lines 277-298); `Activation('softmax')` applies the softmax
`σ` along the last axis, i.e. to each box row independently (line 302);
`Concatenate(axis=2)` appends the three streams row by row (line 306).
The softmax itself is kept abstract (`σ`): the claims concern the
data layout, not its numerics.
-/

/-- `mbox_conf` (lines 250-255 and 277-282): per-layer class predictions
reshaped to `(-1, n_classes)` and concatenated along the box axis, in the
order conv4_3, fc7, conv6_2, conv7_2, conv8_2, conv9_2. -/
def mbox_conf {α : Type} (n_classes : ℕ)
    (conv4_3_norm_mbox_conf fc7_mbox_conf conv6_2_mbox_conf
     conv7_2_mbox_conf conv8_2_mbox_conf conv9_2_mbox_conf : Tensor3 α) :
    List (List α) :=
  reshapeRows n_classes conv4_3_norm_mbox_conf ++
  reshapeRows n_classes fc7_mbox_conf ++
  reshapeRows n_classes conv6_2_mbox_conf ++
  reshapeRows n_classes conv7_2_mbox_conf ++
  reshapeRows n_classes conv8_2_mbox_conf ++
  reshapeRows n_classes conv9_2_mbox_conf

/-- `mbox_loc` (lines 258-263 and 285-290): per-layer box offsets
reshaped to `(-1, 4)` and concatenated, same layer order. -/
def mbox_loc {α : Type}
    (conv4_3_norm_mbox_loc fc7_mbox_loc conv6_2_mbox_loc
     conv7_2_mbox_loc conv8_2_mbox_loc conv9_2_mbox_loc : Tensor3 α) :
    List (List α) :=
  reshapeRows 4 conv4_3_norm_mbox_loc ++
  reshapeRows 4 fc7_mbox_loc ++
  reshapeRows 4 conv6_2_mbox_loc ++
  reshapeRows 4 conv7_2_mbox_loc ++
  reshapeRows 4 conv8_2_mbox_loc ++
  reshapeRows 4 conv9_2_mbox_loc

/-- `mbox_priorbox` (lines 265-270 and 293-298): per-layer anchor
tensors reshaped to `(-1, 8)` and concatenated, same layer order. -/
def mbox_priorbox {α : Type}
    (conv4_3_norm_mbox_priorbox fc7_mbox_priorbox conv6_2_mbox_priorbox
     conv7_2_mbox_priorbox conv8_2_mbox_priorbox conv9_2_mbox_priorbox : Tensor3 α) :
    List (List α) :=
  reshapeRows 8 conv4_3_norm_mbox_priorbox ++
  reshapeRows 8 fc7_mbox_priorbox ++
  reshapeRows 8 conv6_2_mbox_priorbox ++
  reshapeRows 8 conv7_2_mbox_priorbox ++
  reshapeRows 8 conv8_2_mbox_priorbox ++
  reshapeRows 8 conv9_2_mbox_priorbox

/-- `predictions` (lines 302-306): softmax over the concatenated class
scores (per box, i.e. per row), then `Concatenate(axis=2)` of
`[mbox_conf_softmax, mbox_loc, mbox_priorbox]`. -/
def predictions {α : Type} (σ : List α → List α) (n_classes : ℕ)
    (c1 c2 c3 c4 c5 c6 l1 l2 l3 l4 l5 l6 p1 p2 p3 p4 p5 p6 : Tensor3 α) :
    List (List α) :=
  List.zipWith (fun a b => a ++ b)
    ((mbox_conf n_classes c1 c2 c3 c4 c5 c6).map σ)
    (List.zipWith (fun a b => a ++ b)
      (mbox_loc l1 l2 l3 l4 l5 l6)
      (mbox_priorbox p1 p2 p3 p4 p5 p6))

/-- Boxes contributed by one layer of grid `(h, w)` with `k` boxes per
cell. -/
def layerBoxCount (d : ℕ × ℕ × ℕ) : ℕ := d.1 * d.2.1 * d.2.2

/-- Start index, on the concatenated box axis, of the boxes of layer `i`
for per-layer dimensions `dims`. -/
def offsetUpTo (dims : List (ℕ × ℕ × ℕ)) (i : ℕ) : ℕ :=
  ((dims.take i).map layerBoxCount).sum

/-- A concatenated reshape stream over any list of layer tensors; the
six-argument streams above are its instances. -/
def concatReshapes {α : Type} (m : ℕ) (ts : List (Tensor3 α)) : List (List α) :=
  (ts.map (reshapeRows m)).flatten

/-- Each layer tensor has its declared grid and a depth packing
`k` boxes of `m` entries. -/
def wfLayers {α : Type} (m : ℕ) (ts : List (Tensor3 α)) (dims : List (ℕ × ℕ × ℕ)) : Prop :=
  List.Forall₂ (fun t d => wf3 d.1 d.2.1 (d.2.2 * m) t) ts dims

theorem boxIndex_lt (h w k r c j : ℕ) (hr : r < h) (hc : c < w) (hj : j < k) :
    (r * w + c) * k + j < h * w * k := by
  have h1 : r * w + c < h * w := by
    calc r * w + c < r * w + w := by omega
      _ = (r + 1) * w := by ring
      _ ≤ h * w := Nat.mul_le_mul_right w (by omega)
  calc (r * w + c) * k + j < (r * w + c) * k + k := by omega
    _ = (r * w + c + 1) * k := by ring
    _ ≤ h * w * k := Nat.mul_le_mul_right k (by omega)

theorem concatReshapes_length {α : Type} (m : ℕ) (hm : 0 < m) :
    ∀ (ts : List (Tensor3 α)) (dims : List (ℕ × ℕ × ℕ)),
      wfLayers m ts dims →
      (concatReshapes m ts).length = (dims.map layerBoxCount).sum := by
  intro ts dims hwf
  induction hwf with
  | nil => simp [concatReshapes]
  | cons ht htl ih =>
    rename_i t d ts' dims'
    simp only [concatReshapes, List.map_cons, List.flatten_cons, List.length_append,
      List.map_cons, List.sum_cons]
    rw [reshapeRows_length m d.1 d.2.1 d.2.2 t hm ht]
    simp only [concatReshapes] at ih
    rw [ih, layerBoxCount]

theorem concatReshapes_row_length {α : Type} (m : ℕ) (hm : 0 < m) :
    ∀ (ts : List (Tensor3 α)) (dims : List (ℕ × ℕ × ℕ)),
      wfLayers m ts dims →
      ∀ row ∈ concatReshapes m ts, row.length = m := by
  intro ts dims hwf
  induction hwf with
  | nil => simp [concatReshapes]
  | cons ht htl ih =>
    rename_i t d ts' dims'
    intro row hrow
    simp only [concatReshapes, List.map_cons, List.flatten_cons, List.mem_append] at hrow
    rcases hrow with hrow | hrow
    · exact reshapeRows_row_length m d.1 d.2.1 d.2.2 t hm ht row hrow
    · exact ih row hrow

theorem concatReshapes_getElem? {α : Type} (m : ℕ) (hm : 0 < m) :
    ∀ (ts : List (Tensor3 α)) (dims : List (ℕ × ℕ × ℕ)),
      wfLayers m ts dims →
      ∀ i t d, ts[i]? = some t → dims[i]? = some d →
      ∀ r c j, r < d.1 → c < d.2.1 → j < d.2.2 →
      (concatReshapes m ts)[(offsetUpTo dims i + ((r * d.2.1 + c) * d.2.2 + j))]? =
        some (boxSlice m t r c j) := by
  intro ts dims hwf
  induction hwf with
  | nil => intro i t d hts _; simp at hts
  | cons ht htl ih =>
    rename_i t0 d0 ts' dims'
    intro i t d hts hdims r c j hr hc hj
    cases i with
    | zero =>
      simp only [List.getElem?_cons_zero, Option.some.injEq] at hts hdims
      subst hts; subst hdims
      simp only [offsetUpTo, List.take_zero, List.map_nil, List.sum_nil, Nat.zero_add,
        concatReshapes, List.map_cons, List.flatten_cons]
      rw [List.getElem?_append_left]
      · exact reshapeRows_getElem? m d0.1 d0.2.1 d0.2.2 t0 hm ht r c j hr hc hj
      · rw [reshapeRows_length m d0.1 d0.2.1 d0.2.2 t0 hm ht]
        exact boxIndex_lt d0.1 d0.2.1 d0.2.2 r c j hr hc hj
    | succ i' =>
      simp only [List.getElem?_cons_succ] at hts hdims
      have hoff : offsetUpTo (d0 :: dims') (i' + 1) =
          layerBoxCount d0 + offsetUpTo dims' i' := by
        simp [offsetUpTo, List.take_succ_cons]
      rw [hoff]
      simp only [concatReshapes, List.map_cons, List.flatten_cons]
      have hlen0 : (reshapeRows m t0).length = layerBoxCount d0 := by
        rw [reshapeRows_length m d0.1 d0.2.1 d0.2.2 t0 hm ht, layerBoxCount]
      rw [List.getElem?_append_right (by omega)]
      rw [hlen0]
      have harith : layerBoxCount d0 + offsetUpTo dims' i' +
          ((r * d.2.1 + c) * d.2.2 + j) - layerBoxCount d0 =
          offsetUpTo dims' i' + ((r * d.2.1 + c) * d.2.2 + j) := by omega
      rw [harith]
      exact ih i' t d hts hdims r c j hr hc hj

theorem zipWith_getElem?_some {α β γ : Type} (f : α → β → γ)
    (l₁ : List α) (l₂ : List β) (i : ℕ) (a : α) (b : β)
    (h₁ : l₁[i]? = some a) (h₂ : l₂[i]? = some b) :
    (List.zipWith f l₁ l₂)[i]? = some (f a b) := by
  rw [List.getElem?_zipWith, h₁, h₂]

theorem forall2_getElem?_some {α β : Type} {R : α → β → Prop} :
    ∀ {l₁ : List α} {l₂ : List β}, List.Forall₂ R l₁ l₂ →
      ∀ {i : ℕ} {a : α} {b : β}, l₁[i]? = some a → l₂[i]? = some b → R a b := by
  intro l₁ l₂ hf
  induction hf with
  | nil => intro i a b ha; simp at ha
  | cons hR htl ih =>
    intro i a b ha hb
    cases i with
    | zero =>
      simp only [List.getElem?_cons_zero, Option.some.injEq] at ha hb
      subst ha; subst hb; exact hR
    | succ i' =>
      simp only [List.getElem?_cons_succ] at ha hb
      exact ih ha hb

theorem boxSlice_length {α : Type} (m h w k : ℕ) (t : Tensor3 α)
    (ht : wf3 h w (k * m) t) (r c j : ℕ)
    (hr : r < h) (hc : c < w) (hj : j < k) :
    (boxSlice m t r c j).length = m := by
  obtain ⟨hth, htr⟩ := ht
  have htl : r < t.length := by omega
  have hgr : t.getD r [] = t[r] := by
    rw [List.getD_eq_getElem?_getD, List.getElem?_eq_getElem htl]; rfl
  have hrow := htr _ (List.getElem_mem htl)
  have hcl : c < (t[r]).length := by rw [hrow.1]; omega
  have hgc : (t[r]).getD c [] = (t[r])[c] := by
    rw [List.getD_eq_getElem?_getD, List.getElem?_eq_getElem hcl]; rfl
  have hcell : ((t[r])[c] : List α).length = k * m :=
    hrow.2 _ (List.getElem_mem hcl)
  have hle : j * m + m ≤ k * m := by
    calc j * m + m = (j + 1) * m := by ring
      _ ≤ k * m := Nat.mul_le_mul_right m (by omega)
  rw [boxSlice, hgr, hgc]
  simp only [List.length_take, List.length_drop, hcell]
  omega

theorem mbox_conf_eq_concat {α : Type} (n : ℕ) (c1 c2 c3 c4 c5 c6 : Tensor3 α) :
    mbox_conf n c1 c2 c3 c4 c5 c6 = concatReshapes n [c1, c2, c3, c4, c5, c6] := by
  simp [mbox_conf, concatReshapes]

theorem mbox_loc_eq_concat {α : Type} (l1 l2 l3 l4 l5 l6 : Tensor3 α) :
    mbox_loc l1 l2 l3 l4 l5 l6 = concatReshapes 4 [l1, l2, l3, l4, l5, l6] := by
  simp [mbox_loc, concatReshapes]

theorem mbox_priorbox_eq_concat {α : Type} (p1 p2 p3 p4 p5 p6 : Tensor3 α) :
    mbox_priorbox p1 p2 p3 p4 p5 p6 = concatReshapes 8 [p1, p2, p3, p4, p5, p6] := by
  simp [mbox_priorbox, concatReshapes]

theorem predictionStream_getElem?
    (n : ℕ) (hn : 0 < n) (σ : List ℚ → List ℚ)
    (cs ls ps : List (Tensor3 ℚ)) (D : List (ℕ × ℕ × ℕ))
    (hwfc : wfLayers n cs D) (hwfl : wfLayers 4 ls D) (hwfp : wfLayers 8 ps D)
    (i : ℕ) (tc tl tp : Tensor3 ℚ) (d : ℕ × ℕ × ℕ)
    (hci : cs[i]? = some tc) (hli : ls[i]? = some tl) (hpi : ps[i]? = some tp)
    (hdi : D[i]? = some d)
    (r c j : ℕ) (hr : r < d.1) (hc : c < d.2.1) (hj : j < d.2.2) :
    (List.zipWith (fun a b => a ++ b) ((concatReshapes n cs).map σ)
        (List.zipWith (fun a b => a ++ b) (concatReshapes 4 ls)
          (concatReshapes 8 ps)))[(offsetUpTo D i + ((r * d.2.1 + c) * d.2.2 + j))]? =
      some (σ (boxSlice n tc r c j) ++ (boxSlice 4 tl r c j ++ boxSlice 8 tp r c j)) := by
  have h1 := concatReshapes_getElem? n hn cs D hwfc i tc d hci hdi r c j hr hc hj
  have h2 := concatReshapes_getElem? 4 (by norm_num) ls D hwfl i tl d hli hdi r c j hr hc hj
  have h3 := concatReshapes_getElem? 8 (by norm_num) ps D hwfp i tp d hpi hdi r c j hr hc hj
  have hmap : ((concatReshapes n cs).map σ)[(offsetUpTo D i +
      ((r * d.2.1 + c) * d.2.2 + j))]? = some (σ (boxSlice n tc r c j)) := by
    rw [List.getElem?_map, h1]
    rfl
  exact zipWith_getElem?_some _ _ _ _ _ _ hmap
    (zipWith_getElem?_some _ _ _ _ _ _ h2 h3)

theorem row_columns (n : ℕ) (A B C : List ℚ)
    (hA : A.length = n) (hB : B.length = 4) :
    (A ++ (B ++ C)).take n = A ∧
    ((A ++ (B ++ C)).drop n).take 4 = B ∧
    (A ++ (B ++ C)).drop (n + 4) = C := by
  refine ⟨List.take_left' hA, ?_, ?_⟩
  · rw [List.drop_left' hA, List.take_left' hB]
  · rw [← List.drop_drop, List.drop_left' hA, List.drop_left' hB]

/-- Modelled from the spec: the `AnchorBoxes` layer lives in
`keras_layer_AnchorBoxes.py`, which is not among the sources here; per
the spec (§3, §4.3) its depth-8 output per box is 4 anchor coordinates
followed by the 4 variances, so a reshaped 8-wide anchor row is
`coords ++ variances`. -/
def anchorRow (coords variances : List ℚ) : List ℚ :=
  coords ++ variances

theorem assembledRow_spec
    (n : ℕ) (hn : 0 < n) (σ : List ℚ → List ℚ)
    (hσ : ∀ l : List ℚ, (σ l).length = l.length)
    (cs ls ps : List (Tensor3 ℚ)) (D : List (ℕ × ℕ × ℕ))
    (hwfc : wfLayers n cs D) (hwfl : wfLayers 4 ls D) (hwfp : wfLayers 8 ps D)
    (i : ℕ) (tc tl tp : Tensor3 ℚ) (d : ℕ × ℕ × ℕ)
    (hci : cs[i]? = some tc) (hli : ls[i]? = some tl) (hpi : ps[i]? = some tp)
    (hdi : D[i]? = some d)
    (r c j : ℕ) (hr : r < d.1) (hc : c < d.2.1) (hj : j < d.2.2) :
    ∃ row : List ℚ,
      (List.zipWith (fun a b => a ++ b) ((concatReshapes n cs).map σ)
          (List.zipWith (fun a b => a ++ b) (concatReshapes 4 ls)
            (concatReshapes 8 ps)))[(offsetUpTo D i +
              ((r * d.2.1 + c) * d.2.2 + j))]? = some row ∧
      row = σ (boxSlice n tc r c j) ++
        (boxSlice 4 tl r c j ++ boxSlice 8 tp r c j) ∧
      row.length = n + 12 ∧
      row.take n = σ (boxSlice n tc r c j) ∧
      (row.drop n).take 4 = boxSlice 4 tl r c j ∧
      row.drop (n + 4) = boxSlice 8 tp r c j ∧
      ∀ coords vs : List ℚ, boxSlice 8 tp r c j = anchorRow coords vs →
        coords.length = 4 → vs.length = 4 →
        (row.drop (n + 4)).take 4 = coords ∧ (row.drop (n + 8)).take 4 = vs := by
  have hwtc : wf3 d.1 d.2.1 (d.2.2 * n) tc := forall2_getElem?_some hwfc hci hdi
  have hwtl : wf3 d.1 d.2.1 (d.2.2 * 4) tl := forall2_getElem?_some hwfl hli hdi
  have hwtp : wf3 d.1 d.2.1 (d.2.2 * 8) tp := forall2_getElem?_some hwfp hpi hdi
  have hA : (σ (boxSlice n tc r c j)).length = n := by
    rw [hσ, boxSlice_length n d.1 d.2.1 d.2.2 tc hwtc r c j hr hc hj]
  have hB : (boxSlice 4 tl r c j).length = 4 :=
    boxSlice_length 4 d.1 d.2.1 d.2.2 tl hwtl r c j hr hc hj
  have hC : (boxSlice 8 tp r c j).length = 8 :=
    boxSlice_length 8 d.1 d.2.1 d.2.2 tp hwtp r c j hr hc hj
  refine ⟨σ (boxSlice n tc r c j) ++ (boxSlice 4 tl r c j ++ boxSlice 8 tp r c j),
    predictionStream_getElem? n hn σ cs ls ps D hwfc hwfl hwfp i tc tl tp d
      hci hli hpi hdi r c j hr hc hj, rfl, ?_, ?_, ?_, ?_, ?_⟩
  · simp [hA, hB, hC]
  · exact (row_columns n _ _ _ hA hB).1
  · exact (row_columns n _ _ _ hA hB).2.1
  · exact (row_columns n _ _ _ hA hB).2.2
  · intro coords vs hsplit hco hvs
    have hdropC : (σ (boxSlice n tc r c j) ++
        (boxSlice 4 tl r c j ++ boxSlice 8 tp r c j)).drop (n + 4) =
        boxSlice 8 tp r c j := (row_columns n _ _ _ hA hB).2.2
    constructor
    · rw [hdropC, hsplit, anchorRow, List.take_left' hco]
    · have : (σ (boxSlice n tc r c j) ++
          (boxSlice 4 tl r c j ++ boxSlice 8 tp r c j)).drop (n + 8) =
          (boxSlice 8 tp r c j).drop 4 := by
        have h48 : n + 8 = (n + 4) + 4 := by omega
        rw [h48, ← List.drop_drop, hdropC]
      rw [this, hsplit, anchorRow, List.drop_left' hco,
        List.take_of_length_le (by omega)]

/-- **C1.** The multi-scale assembler reshapes each layer's class-score,
offset and anchor tensors into `(num_boxes_i, n_classes)`,
`(num_boxes_i, 4)` and `(num_boxes_i, 8)` sequences by row-major
flattening (rows top-to-bottom, columns left-to-right, then box index
within cell), concatenates the six layers along the box axis in the
fixed order conv4_3, fc7, conv6_2, conv7_2, conv8_2, conv9_2 (the same
order for all three streams), applies the softmax to the concatenated
class scores independently per box, and concatenates the three streams
along the last axis, so that box `(layer i, row r, column c, box j)`
sits at box index `offset_i + (r*w_i + c)*k_i + j` and its output
columns are `[0, n)` class probabilities, `[n, n+4)` predicted offsets,
`[n+4, n+8)` anchor coordinates and `[n+8, n+12)` variances (the anchor
tensor's 8-wide rows being anchor coordinates followed by variances,
`anchorRow`). -/
theorem C1_multi_scale_assembly
    (n : ℕ) (hn : 0 < n) (σ : List ℚ → List ℚ)
    (hσ : ∀ l : List ℚ, (σ l).length = l.length)
    (h1 w1 k1 h2 w2 k2 h3 w3 k3 h4 w4 k4 h5 w5 k5 h6 w6 k6 : ℕ)
    (c1 c2 c3 c4 c5 c6 l1 l2 l3 l4 l5 l6 p1 p2 p3 p4 p5 p6 : Tensor3 ℚ)
    (hc1 : wf3 h1 w1 (k1 * n) c1) (hc2 : wf3 h2 w2 (k2 * n) c2)
    (hc3 : wf3 h3 w3 (k3 * n) c3) (hc4 : wf3 h4 w4 (k4 * n) c4)
    (hc5 : wf3 h5 w5 (k5 * n) c5) (hc6 : wf3 h6 w6 (k6 * n) c6)
    (hl1 : wf3 h1 w1 (k1 * 4) l1) (hl2 : wf3 h2 w2 (k2 * 4) l2)
    (hl3 : wf3 h3 w3 (k3 * 4) l3) (hl4 : wf3 h4 w4 (k4 * 4) l4)
    (hl5 : wf3 h5 w5 (k5 * 4) l5) (hl6 : wf3 h6 w6 (k6 * 4) l6)
    (hp1 : wf3 h1 w1 (k1 * 8) p1) (hp2 : wf3 h2 w2 (k2 * 8) p2)
    (hp3 : wf3 h3 w3 (k3 * 8) p3) (hp4 : wf3 h4 w4 (k4 * 8) p4)
    (hp5 : wf3 h5 w5 (k5 * 8) p5) (hp6 : wf3 h6 w6 (k6 * 8) p6) :
    (predictions σ n c1 c2 c3 c4 c5 c6 l1 l2 l3 l4 l5 l6 p1 p2 p3 p4 p5 p6).length =
        h1 * w1 * k1 + h2 * w2 * k2 + h3 * w3 * k3 + h4 * w4 * k4 +
          h5 * w5 * k5 + h6 * w6 * k6 ∧
    ∀ i r c j, i < 6 →
      r < ([(h1, w1, k1), (h2, w2, k2), (h3, w3, k3), (h4, w4, k4),
            (h5, w5, k5), (h6, w6, k6)].getD i (0, 0, 0)).1 →
      c < ([(h1, w1, k1), (h2, w2, k2), (h3, w3, k3), (h4, w4, k4),
            (h5, w5, k5), (h6, w6, k6)].getD i (0, 0, 0)).2.1 →
      j < ([(h1, w1, k1), (h2, w2, k2), (h3, w3, k3), (h4, w4, k4),
            (h5, w5, k5), (h6, w6, k6)].getD i (0, 0, 0)).2.2 →
      ∃ row : List ℚ,
        (predictions σ n c1 c2 c3 c4 c5 c6 l1 l2 l3 l4 l5 l6 p1 p2 p3 p4 p5 p6)[
          (offsetUpTo [(h1, w1, k1), (h2, w2, k2), (h3, w3, k3), (h4, w4, k4),
              (h5, w5, k5), (h6, w6, k6)] i +
            ((r * ([(h1, w1, k1), (h2, w2, k2), (h3, w3, k3), (h4, w4, k4),
                (h5, w5, k5), (h6, w6, k6)].getD i (0, 0, 0)).2.1 + c) *
              ([(h1, w1, k1), (h2, w2, k2), (h3, w3, k3), (h4, w4, k4),
                (h5, w5, k5), (h6, w6, k6)].getD i (0, 0, 0)).2.2 + j))]? = some row ∧
        row = σ (boxSlice n ([c1, c2, c3, c4, c5, c6].getD i []) r c j) ++
          (boxSlice 4 ([l1, l2, l3, l4, l5, l6].getD i []) r c j ++
           boxSlice 8 ([p1, p2, p3, p4, p5, p6].getD i []) r c j) ∧
        row.length = n + 12 ∧
        row.take n = σ (boxSlice n ([c1, c2, c3, c4, c5, c6].getD i []) r c j) ∧
        (row.drop n).take 4 = boxSlice 4 ([l1, l2, l3, l4, l5, l6].getD i []) r c j ∧
        row.drop (n + 4) = boxSlice 8 ([p1, p2, p3, p4, p5, p6].getD i []) r c j ∧
        ∀ coords vs : List ℚ,
          boxSlice 8 ([p1, p2, p3, p4, p5, p6].getD i []) r c j = anchorRow coords vs →
          coords.length = 4 → vs.length = 4 →
          (row.drop (n + 4)).take 4 = coords ∧ (row.drop (n + 8)).take 4 = vs := by
  have hwfc : wfLayers n [c1, c2, c3, c4, c5, c6]
      [(h1, w1, k1), (h2, w2, k2), (h3, w3, k3), (h4, w4, k4), (h5, w5, k5), (h6, w6, k6)] :=
    .cons hc1 (.cons hc2 (.cons hc3 (.cons hc4 (.cons hc5 (.cons hc6 .nil)))))
  have hwfl : wfLayers 4 [l1, l2, l3, l4, l5, l6]
      [(h1, w1, k1), (h2, w2, k2), (h3, w3, k3), (h4, w4, k4), (h5, w5, k5), (h6, w6, k6)] :=
    .cons hl1 (.cons hl2 (.cons hl3 (.cons hl4 (.cons hl5 (.cons hl6 .nil)))))
  have hwfp : wfLayers 8 [p1, p2, p3, p4, p5, p6]
      [(h1, w1, k1), (h2, w2, k2), (h3, w3, k3), (h4, w4, k4), (h5, w5, k5), (h6, w6, k6)] :=
    .cons hp1 (.cons hp2 (.cons hp3 (.cons hp4 (.cons hp5 (.cons hp6 .nil)))))
  have hpredEq : predictions σ n c1 c2 c3 c4 c5 c6 l1 l2 l3 l4 l5 l6 p1 p2 p3 p4 p5 p6 =
      List.zipWith (fun a b => a ++ b)
        ((concatReshapes n [c1, c2, c3, c4, c5, c6]).map σ)
        (List.zipWith (fun a b => a ++ b)
          (concatReshapes 4 [l1, l2, l3, l4, l5, l6])
          (concatReshapes 8 [p1, p2, p3, p4, p5, p6])) := by
    rw [predictions, mbox_conf_eq_concat, mbox_loc_eq_concat, mbox_priorbox_eq_concat]
  constructor
  · rw [hpredEq]
    rw [List.length_zipWith, List.length_map, List.length_zipWith]
    rw [concatReshapes_length n hn _ _ hwfc,
      concatReshapes_length 4 (by norm_num) _ _ hwfl,
      concatReshapes_length 8 (by norm_num) _ _ hwfp]
    simp [layerBoxCount]
    omega
  · intro i r c j hi hr hc hj
    rw [hpredEq]
    interval_cases i
    · exact assembledRow_spec n hn σ hσ _ _ _ _ hwfc hwfl hwfp 0 c1 l1 p1
        (h1, w1, k1) rfl rfl rfl rfl r c j hr hc hj
    · exact assembledRow_spec n hn σ hσ _ _ _ _ hwfc hwfl hwfp 1 c2 l2 p2
        (h2, w2, k2) rfl rfl rfl rfl r c j hr hc hj
    · exact assembledRow_spec n hn σ hσ _ _ _ _ hwfc hwfl hwfp 2 c3 l3 p3
        (h3, w3, k3) rfl rfl rfl rfl r c j hr hc hj
    · exact assembledRow_spec n hn σ hσ _ _ _ _ hwfc hwfl hwfp 3 c4 l4 p4
        (h4, w4, k4) rfl rfl rfl rfl r c j hr hc hj
    · exact assembledRow_spec n hn σ hσ _ _ _ _ hwfc hwfl hwfp 4 c5 l5 p5
        (h5, w5, k5) rfl rfl rfl rfl r c j hr hc hj
    · exact assembledRow_spec n hn σ hσ _ _ _ _ hwfc hwfl hwfp 5 c6 l6 p6
        (h6, w6, k6) rfl rfl rfl rfl r c j hr hc hj

theorem C1_multi_scale_assembly_witness :
    (predictions (fun l : List ℚ => l) 1
      [[[1]]] [[[1]]] [[[1]]] [[[1]]] [[[1]]] [[[1]]]
      [[[1, 1, 1, 1]]] [[[1, 1, 1, 1]]] [[[1, 1, 1, 1]]]
      [[[1, 1, 1, 1]]] [[[1, 1, 1, 1]]] [[[1, 1, 1, 1]]]
      [[[1, 1, 1, 1, 1, 1, 1, 1]]] [[[1, 1, 1, 1, 1, 1, 1, 1]]]
      [[[1, 1, 1, 1, 1, 1, 1, 1]]] [[[1, 1, 1, 1, 1, 1, 1, 1]]]
      [[[1, 1, 1, 1, 1, 1, 1, 1]]] [[[1, 1, 1, 1, 1, 1, 1, 1]]]).length = 6 :=
  (C1_multi_scale_assembly 1 (by norm_num) (fun l => l) (fun _ => rfl)
    1 1 1 1 1 1 1 1 1 1 1 1 1 1 1 1 1 1
    [[[1]]] [[[1]]] [[[1]]] [[[1]]] [[[1]]] [[[1]]]
    [[[1, 1, 1, 1]]] [[[1, 1, 1, 1]]] [[[1, 1, 1, 1]]]
    [[[1, 1, 1, 1]]] [[[1, 1, 1, 1]]] [[[1, 1, 1, 1]]]
    [[[1, 1, 1, 1, 1, 1, 1, 1]]] [[[1, 1, 1, 1, 1, 1, 1, 1]]]
    [[[1, 1, 1, 1, 1, 1, 1, 1]]] [[[1, 1, 1, 1, 1, 1, 1, 1]]]
    [[[1, 1, 1, 1, 1, 1, 1, 1]]] [[[1, 1, 1, 1, 1, 1, 1, 1]]]
    (by decide) (by decide) (by decide) (by decide) (by decide) (by decide)
    (by decide) (by decide) (by decide) (by decide) (by decide) (by decide)
    (by decide) (by decide) (by decide) (by decide) (by decide) (by decide)).1

/-- Inversion of a successful `ssd_300` call: every field of the model
comes from the corresponding stage, and all validation passed. -/
theorem ssd_300_ok_spec (cfg : SSDConfig) (m : SSD300Model)
    (h : ssd_300 cfg = .ok m) :
    resolveAspectRatios cfg = .ok m.aspect_ratios ∧
    m.n_boxes = nBoxesOf cfg.two_boxes_for_ar1 m.aspect_ratios ∧
    resolveScales cfg = .ok m.scales ∧
    m.variances = cfg.variances ∧
    cfg.variances.length = 4 ∧
    (∀ v ∈ cfg.variances, 0 < v) ∧
    m.conf_channels = confChannelsOf cfg.n_classes m.n_boxes ∧
    m.loc_channels = locChannelsOf m.n_boxes ∧
    m.anchor_params = anchorParamsOf m.scales m.aspect_ratios ∧
    m.classifier_sizes = classifier_sizes_of cfg.img_height cfg.img_width ∧
    (truthy cfg.aspect_ratios_per_layer = true →
      (cfg.aspect_ratios_per_layer.getD []).length = n_classifier_layers) := by
  unfold ssd_300 at h
  split at h
  · exact absurd h (by simp)
  split at h
  next hg2 => exact absurd h (by simp)
  next hg2 =>
    split at h
    next e he => exact absurd h (by simp)
    next ars hars =>
      split at h
      · exact absurd h (by simp)
      split at h
      next e he => exact absurd h (by simp)
      next sc hsc =>
        split at h
        · exact absurd h (by simp)
        next hlen =>
          split at h
          next hany => exact absurd h (by simp)
          next hany =>
            simp only [Except.ok.injEq] at h
            subst h
            refine ⟨hars, rfl, hsc, rfl, by omega, ?_, rfl, rfl, rfl, rfl, ?_⟩
            · intro v hv
              simp only [List.any_eq_true, decide_eq_true_eq, not_exists, not_and] at hany
              exact not_le.mp (hany v hv)
            · intro ht
              have := not_and.mp hg2 ht
              omega

/-- Case analysis of a successful aspect-ratio resolution: either the
per-layer argument is truthy and is used as-is, or the global list is
replicated over all six layers. -/
theorem resolveAspectRatios_ok_cases (cfg : SSDConfig) (ars : List (List ℚ))
    (h : resolveAspectRatios cfg = .ok ars) :
    (truthy cfg.aspect_ratios_per_layer = true ∧
      ars = cfg.aspect_ratios_per_layer.getD []) ∨
    (truthy cfg.aspect_ratios_per_layer = false ∧
      ∃ g, cfg.aspect_ratios_global = some g ∧
        ars = List.replicate n_classifier_layers g) := by
  unfold resolveAspectRatios at h
  split at h
  next ht =>
    left
    simp only [Except.ok.injEq] at h
    exact ⟨ht, h.symm⟩
  next ht =>
    right
    refine ⟨Bool.eq_false_iff.mpr ht, ?_⟩
    split at h
    next g hg =>
      simp only [Except.ok.injEq] at h
      exact ⟨g, hg, h.symm⟩
    next hg => exact absurd h (by simp)

/-- Case analysis of a successful scale resolution: either a truthy
`scales` argument of length 7 is used as-is, or `np.linspace` between
the two given bounds. -/
theorem resolveScales_ok_cases (cfg : SSDConfig) (sc : List ℚ)
    (h : resolveScales cfg = .ok sc) :
    (truthy cfg.scales = true ∧ sc = cfg.scales.getD [] ∧
      sc.length = n_classifier_layers + 1) ∨
    (truthy cfg.scales = false ∧
      ∃ a b, cfg.min_scale = some a ∧ cfg.max_scale = some b ∧
        sc = linspace a b (n_classifier_layers + 1)) := by
  unfold resolveScales at h
  split at h
  next ht =>
    left
    split at h
    next hl => exact absurd h (by simp)
    next hl =>
      simp only [Except.ok.injEq] at h
      subst h
      exact ⟨ht, rfl, by omega⟩
  next ht =>
    right
    refine ⟨Bool.eq_false_iff.mpr ht, ?_⟩
    split at h
    next a b ha hb =>
      simp only [Except.ok.injEq] at h
      exact ⟨a, b, ha, hb, h.symm⟩
    next => exact absurd h (by simp)

theorem linspace_length (a b : ℚ) (num : ℕ) : (linspace a b num).length = num := by
  unfold linspace
  rw [List.length_map, List.length_range]

/-- A successful call always carries a 7-element scale sequence. -/
theorem ssd_300_scales_length (cfg : SSDConfig) (m : SSD300Model)
    (h : ssd_300 cfg = .ok m) : m.scales.length = 7 := by
  obtain ⟨-, -, hsc, -⟩ := ssd_300_ok_spec cfg m h
  rcases resolveScales_ok_cases cfg m.scales hsc with ⟨-, -, hlen⟩ | ⟨-, a, b, -, -, heq⟩
  · exact hlen
  · rw [heq, linspace_length]
    rfl

theorem linspace_getD (a b : ℚ) (num i : ℕ) (hi : i < num) :
    (linspace a b num).getD i 0 = a + (i : ℚ) * ((b - a) / ((num - 1 : ℕ) : ℚ)) := by
  rw [linspace, List.getD_eq_getElem?_getD, List.getElem?_map, List.getElem?_range hi]
  rfl

theorem getD_map_of_lt {α β : Type} (f : α → β) (l : List α) (i : ℕ)
    (hi : i < l.length) (dα : α) (dβ : β) :
    (l.map f).getD i dβ = f (l.getD i dα) := by
  rw [List.getD_eq_getElem?_getD, List.getD_eq_getElem?_getD, List.getElem?_map,
    List.getElem?_eq_getElem hi]
  rfl

/-- The model produced by `ssd_300` with `image_size = (300, 300, 3)`,
`n_classes = 21` and all optional arguments at their defaults. -/
def defaultModel300 : SSD300Model :=
  { aspect_ratios := default_aspect_ratios_per_layer
    n_boxes := [4, 6, 6, 6, 4, 4]
    scales := [1/10, 7/30, 11/30, 1/2, 19/30, 23/30, 9/10]
    variances := [1/10, 1/10, 1/5, 1/5]
    conf_channels := [4 * 21, 6 * 21, 6 * 21, 6 * 21, 4 * 21, 4 * 21]
    loc_channels := [4 * 4, 6 * 4, 6 * 4, 6 * 4, 4 * 4, 4 * 4]
    anchor_params :=
      [⟨1/10, 7/30, [1/2, 1, 2]⟩,
       ⟨7/30, 11/30, [1/3, 1/2, 1, 2, 3]⟩,
       ⟨11/30, 1/2, [1/3, 1/2, 1, 2, 3]⟩,
       ⟨1/2, 19/30, [1/3, 1/2, 1, 2, 3]⟩,
       ⟨19/30, 23/30, [1/2, 1, 2]⟩,
       ⟨23/30, 9/10, [1/2, 1, 2]⟩]
    classifier_sizes := [(38, 38), (19, 19), (10, 10), (5, 5), (3, 3), (1, 1)] }

/-- Evaluating the default call concretely. -/
theorem ssd_300_default_eval :
    ssd_300 (defaultConfig 300 300 3 21) = .ok defaultModel300 := by
  norm_num [ssd_300, resolveAspectRatios, resolveScales, defaultConfig,
    default_aspect_ratios_per_layer, truthy, nBoxesOf, boxesPerLayer,
    confChannelsOf, locChannelsOf, anchorParamsOf, classifier_sizes_of,
    conv4_3_dim, fc7_dim, conv6_2_dim, conv7_2_dim, conv8_2_dim, conv9_2_dim,
    out_same, out_valid, linspace, n_classifier_layers, List.range_succ,
    defaultModel300]

/-- **C2.** For every layer `i`, the per-cell anchor count satisfies
`k_i = len(aspect_ratios_i) + 1` if `1.0 ∈ aspect_ratios_i` and
`two_boxes_for_ar1`, else `k_i = len(aspect_ratios_i)` — where a
(truthy) supplied `aspect_ratios_per_layer` overrides
`aspect_ratios_global`, and a global list is applied identically to all
six layers — and layer `i`'s classification and localization
convolutions are built with exactly `k_i * n_classes` and `k_i * 4`
output channels respectively. -/
theorem C2_anchor_counts_and_channels (cfg : SSDConfig) (m : SSD300Model)
    (h : ssd_300 cfg = .ok m) :
    m.aspect_ratios.length = n_classifier_layers ∧
    (truthy cfg.aspect_ratios_per_layer = true →
      m.aspect_ratios = cfg.aspect_ratios_per_layer.getD []) ∧
    (truthy cfg.aspect_ratios_per_layer = false →
      ∃ g, cfg.aspect_ratios_global = some g ∧
        m.aspect_ratios = List.replicate n_classifier_layers g) ∧
    ∀ i, i < n_classifier_layers →
      (m.n_boxes.getD i 0 =
        (m.aspect_ratios.getD i []).length +
          (if (1 : ℚ) ∈ m.aspect_ratios.getD i [] ∧ cfg.two_boxes_for_ar1 = true
           then 1 else 0)) ∧
      m.conf_channels.getD i 0 = m.n_boxes.getD i 0 * cfg.n_classes ∧
      m.loc_channels.getD i 0 = m.n_boxes.getD i 0 * 4 := by
  obtain ⟨hars, hnb, hsc, hv, hvl, hvp, hconf, hloc, hap, hcs, hguard⟩ :=
    ssd_300_ok_spec cfg m h
  have hlen : m.aspect_ratios.length = n_classifier_layers := by
    rcases resolveAspectRatios_ok_cases cfg m.aspect_ratios hars with
      ⟨ht, heq⟩ | ⟨ht, g, hg, heq⟩
    · rw [heq]; exact hguard ht
    · rw [heq, List.length_replicate]
  refine ⟨hlen, ?_, ?_, ?_⟩
  · intro ht
    rcases resolveAspectRatios_ok_cases cfg m.aspect_ratios hars with
      ⟨-, heq⟩ | ⟨hf, -⟩
    · exact heq
    · rw [ht] at hf; exact absurd hf (by simp)
  · intro ht
    rcases resolveAspectRatios_ok_cases cfg m.aspect_ratios hars with
      ⟨htt, -⟩ | ⟨-, g, hg, heq⟩
    · rw [ht] at htt; exact absurd htt (by simp)
    · exact ⟨g, hg, heq⟩
  · intro i hi
    have hilt : i < m.aspect_ratios.length := by omega
    have hnbi : m.n_boxes.getD i 0 =
        boxesPerLayer cfg.two_boxes_for_ar1 (m.aspect_ratios.getD i []) := by
      rw [hnb, nBoxesOf, getD_map_of_lt _ _ i hilt []]
    have hi6 : i < 6 := hi
    refine ⟨?_, ?_, ?_⟩
    · rw [hnbi, boxesPerLayer]
      split <;> omega
    · rw [hconf, confChannelsOf]
      interval_cases i <;> rfl
    · rw [hloc, locChannelsOf]
      interval_cases i <;> rfl

theorem C2_anchor_counts_and_channels_witness :
    defaultModel300.aspect_ratios.length = n_classifier_layers :=
  (C2_anchor_counts_and_channels (defaultConfig 300 300 3 21) defaultModel300
    ssd_300_default_eval).1

/-- **C3.** The scale sequence has exactly `n_layers + 1 = 7` elements
and is paired to layers so that for every layer `i` in `0..5` the
`AnchorBoxes` call of layer `i` receives scale element `i` as
`this_scale` and element `i+1` as `next_scale`; subscript 6 appears
only as the `next_scale` subscript of the last layer (where it serves
only the extra ratio-1 box). -/
theorem C3_scale_pairing (cfg : SSDConfig) (m : SSD300Model)
    (h : ssd_300 cfg = .ok m) :
    m.scales.length = n_classifier_layers + 1 ∧
    scale_index_pairs.length = n_classifier_layers ∧
    (∀ i, i < n_classifier_layers → scale_index_pairs.getD i (0, 0) = (i, i + 1)) ∧
    (∀ i, i < n_classifier_layers →
      (m.anchor_params.getD i ⟨0, 0, []⟩).this_scale = m.scales.getD i 0 ∧
      (m.anchor_params.getD i ⟨0, 0, []⟩).next_scale = m.scales.getD (i + 1) 0) ∧
    (∀ i, i < n_classifier_layers →
      (scale_index_pairs.getD i (0, 0)).1 ≠ n_classifier_layers) ∧
    (∀ i, i < n_classifier_layers →
      ((scale_index_pairs.getD i (0, 0)).2 = n_classifier_layers ↔
        i = n_classifier_layers - 1)) := by
  obtain ⟨-, -, -, -, -, -, -, -, hap, -⟩ := ssd_300_ok_spec cfg m h
  refine ⟨ssd_300_scales_length cfg m h, by decide, by decide, ?_, by decide, by decide⟩
  intro i hi
  have hi6 : i < 6 := hi
  rw [hap]
  interval_cases i <;> simp [anchorParamsOf]

theorem C3_scale_pairing_witness :
    defaultModel300.scales.length = n_classifier_layers + 1 :=
  (C3_scale_pairing (defaultConfig 300 300 3 21) defaultModel300
    ssd_300_default_eval).1

/-- **C4.** When `scales` is not (truthily) supplied and `min_scale`,
`max_scale` are given, the derived scale sequence consists of exactly
`L + 1 = 7` values evenly spaced from `min_scale` to `max_scale`
inclusive, and is non-decreasing whenever `min_scale ≤ max_scale`. -/
theorem C4_scale_interpolation (cfg : SSDConfig) (m : SSD300Model)
    (h : ssd_300 cfg = .ok m)
    (hs : truthy cfg.scales = false)
    (a b : ℚ) (ha : cfg.min_scale = some a) (hb : cfg.max_scale = some b) :
    m.scales.length = n_classifier_layers + 1 ∧
    m.scales.getD 0 0 = a ∧
    m.scales.getD n_classifier_layers 0 = b ∧
    (∀ i, i < n_classifier_layers →
      m.scales.getD (i + 1) 0 - m.scales.getD i 0 = (b - a) / 6) ∧
    (a ≤ b → ∀ i j, i ≤ j → j ≤ n_classifier_layers →
      m.scales.getD i 0 ≤ m.scales.getD j 0) := by
  obtain ⟨-, -, hsc, -⟩ := ssd_300_ok_spec cfg m h
  rcases resolveScales_ok_cases cfg m.scales hsc with
    ⟨ht, -⟩ | ⟨-, a', b', ha', hb', heq⟩
  · rw [hs] at ht; exact absurd ht (by simp)
  have haa : a' = a := by rw [ha] at ha'; exact (Option.some.inj ha').symm
  have hbb : b' = b := by rw [hb] at hb'; exact (Option.some.inj hb').symm
  rw [haa, hbb] at heq
  have hcast : (((n_classifier_layers + 1 - 1 : ℕ)) : ℚ) = 6 := by norm_num [n_classifier_layers]
  have hgetD : ∀ i, i < n_classifier_layers + 1 →
      m.scales.getD i 0 = a + (i : ℚ) * ((b - a) / 6) := by
    intro i hi
    rw [heq, linspace_getD a b _ i hi, hcast]
  refine ⟨by rw [heq, linspace_length], ?_, ?_, ?_, ?_⟩
  · rw [hgetD 0 (by norm_num [n_classifier_layers])]
    simp
  · rw [hgetD n_classifier_layers (by omega)]
    norm_num [n_classifier_layers]
    ring
  · intro i hi
    rw [hgetD (i + 1) (by omega), hgetD i (by omega)]
    push_cast
    ring
  · intro hab i j hij hj
    rw [hgetD i (by omega), hgetD j (by omega)]
    have hstep : (0 : ℚ) ≤ (b - a) / 6 :=
      div_nonneg (sub_nonneg.mpr hab) (by norm_num)
    have : (i : ℚ) ≤ (j : ℚ) := Nat.cast_le.mpr hij
    nlinarith

theorem C4_scale_interpolation_witness :
    defaultModel300.scales.getD 0 0 = 1/10 :=
  (C4_scale_interpolation (defaultConfig 300 300 3 21) defaultModel300
    ssd_300_default_eval rfl (1/10) (9/10) rfl rfl).2.1

theorem truthy_isNone_false {β : Type} (o : Option (List β))
    (h : truthy o = true) : o.isNone = false := by
  cases o <;> simp_all [truthy]

/-- **C5 (amended).** For every call that passes aspect-ratio
validation: a supplied *non-empty* (truthy) scales list whose length is
not 7 raises a `ConfigError` before any tensor is built, and a call
with `scales = None` and `min_scale` or `max_scale` absent raises a
`ConfigError` before any tensor is built. (An empty supplied scales
list is falsy in Python and is treated as absent, falling back to
`min_scale`/`max_scale` interpolation — see the counterexample.) -/
theorem C5_scales_validation (cfg : SSDConfig)
    (hg1 : ¬(cfg.aspect_ratios_global.isNone = true ∧
      cfg.aspect_ratios_per_layer.isNone = true))
    (hg2 : ¬(truthy cfg.aspect_ratios_per_layer = true ∧
      (cfg.aspect_ratios_per_layer.getD []).length ≠ n_classifier_layers))
    (hars : ∃ ars, resolveAspectRatios cfg = .ok ars) :
    (truthy cfg.scales = true →
      (cfg.scales.getD []).length ≠ n_classifier_layers + 1 →
      ssd_300 cfg = .error (.valueError (.scales_len (cfg.scales.getD []).length))) ∧
    (cfg.scales = none → (cfg.min_scale = none ∨ cfg.max_scale = none) →
      ssd_300 cfg = .error (.valueError .scales_unspecified)) := by
  obtain ⟨ars, hars⟩ := hars
  constructor
  · intro hts hlen
    have hrs : resolveScales cfg =
        .error (.valueError (.scales_len (cfg.scales.getD []).length)) := by
      rw [resolveScales, if_pos hts, if_pos hlen]
    rw [ssd_300, if_neg hg1, if_neg hg2]
    simp only [hars]
    rw [if_neg (by simp [truthy_isNone_false cfg.scales hts])]
    simp only [hrs]
  · intro hnone hmm
    rw [ssd_300, if_neg hg1, if_neg hg2]
    simp only [hars]
    rw [if_pos ⟨by rcases hmm with h | h <;> simp [h], by simp [hnone]⟩]

/-- A call identical to the default `(300, 300, 3)`, `n_classes = 21`
call except that `scales = []` is explicitly supplied. -/
def emptyScalesConfig : SSDConfig :=
  { defaultConfig 300 300 3 21 with scales := some [] }

/-- **C5 counterexample.** `scales = []` is a supplied scales list of
length `0 ≠ 7`, yet construction succeeds (the empty list is falsy, so
the length check is skipped and `min_scale`/`max_scale` interpolation
is used): no `ConfigError` is raised. -/
theorem C5_counterexample_empty_scales :
    emptyScalesConfig.scales = some [] ∧
    (emptyScalesConfig.scales.getD []).length ≠ n_classifier_layers + 1 ∧
    ssd_300 emptyScalesConfig = .ok defaultModel300 := by
  refine ⟨rfl, by norm_num [emptyScalesConfig, defaultConfig, n_classifier_layers], ?_⟩
  norm_num [ssd_300, resolveAspectRatios, resolveScales, emptyScalesConfig,
    defaultConfig, default_aspect_ratios_per_layer, truthy, nBoxesOf, boxesPerLayer,
    confChannelsOf, locChannelsOf, anchorParamsOf, classifier_sizes_of,
    conv4_3_dim, fc7_dim, conv6_2_dim, conv7_2_dim, conv8_2_dim, conv9_2_dim,
    out_same, out_valid, linspace, n_classifier_layers, List.range_succ,
    defaultModel300]

/-- A call identical to the default call except that `scales` is
supplied with a non-empty list of wrong length. -/
def shortScalesConfig : SSDConfig :=
  { defaultConfig 300 300 3 21 with scales := some [1/2] }

theorem C5_scales_validation_witness :
    ssd_300 shortScalesConfig =
      .error (.valueError (.scales_len (shortScalesConfig.scales.getD []).length)) :=
  (C5_scales_validation shortScalesConfig (by decide) (by decide)
    ⟨default_aspect_ratios_per_layer, rfl⟩).1 (by decide) (by decide)

/-- **C6 (amended).** Positivity is validated only for the variances:
a successful construction guarantees exactly 4 positive variances, but
scale values are not checked for sign anywhere — a configuration whose
scales contain non-positive values passes configuration validation
unchanged (see the counterexample). -/
theorem C6_variance_positivity (cfg : SSDConfig) (m : SSD300Model)
    (h : ssd_300 cfg = .ok m) :
    m.variances = cfg.variances ∧ cfg.variances.length = 4 ∧
    ∀ v ∈ m.variances, 0 < v := by
  obtain ⟨-, -, -, hv, hvl, hvp, -⟩ := ssd_300_ok_spec cfg m h
  exact ⟨hv, hvl, by rw [hv]; exact hvp⟩

theorem C6_variance_positivity_witness :
    defaultModel300.variances = (defaultConfig 300 300 3 21).variances :=
  (C6_variance_positivity (defaultConfig 300 300 3 21) defaultModel300
    ssd_300_default_eval).1

/-- A call identical to the default call except that all seven supplied
scale values are `-1 < 0`. -/
def negScalesConfig : SSDConfig :=
  { defaultConfig 300 300 3 21 with
      scales := some [-1, -1, -1, -1, -1, -1, -1] }

/-- The model built from `negScalesConfig`: the negative scales are
accepted verbatim. -/
def negScalesModel300 : SSD300Model :=
  { defaultModel300 with
      scales := [-1, -1, -1, -1, -1, -1, -1]
      anchor_params :=
        [⟨-1, -1, [1/2, 1, 2]⟩,
         ⟨-1, -1, [1/3, 1/2, 1, 2, 3]⟩,
         ⟨-1, -1, [1/3, 1/2, 1, 2, 3]⟩,
         ⟨-1, -1, [1/3, 1/2, 1, 2, 3]⟩,
         ⟨-1, -1, [1/2, 1, 2]⟩,
         ⟨-1, -1, [1/2, 1, 2]⟩] }

/-- **C6 counterexample.** A configuration whose scales are all `-1`
(non-positive) is *not* rejected: construction succeeds and the model
carries the non-positive scales; no `ConfigError` is raised at
configuration-validation time. -/
theorem C6_counterexample_negative_scales :
    ((-1 : ℚ) ∈ [(-1 : ℚ), -1, -1, -1, -1, -1, -1] ∧ (-1 : ℚ) ≤ 0) ∧
    negScalesConfig.scales = some [-1, -1, -1, -1, -1, -1, -1] ∧
    ssd_300 negScalesConfig = .ok negScalesModel300 := by
  refine ⟨⟨by norm_num, by norm_num⟩, rfl, ?_⟩
  norm_num [ssd_300, resolveAspectRatios, resolveScales, negScalesConfig,
    defaultConfig, default_aspect_ratios_per_layer, truthy, nBoxesOf, boxesPerLayer,
    confChannelsOf, locChannelsOf, anchorParamsOf, classifier_sizes_of,
    conv4_3_dim, fc7_dim, conv6_2_dim, conv7_2_dim, conv8_2_dim, conv9_2_dim,
    out_same, out_valid, n_classifier_layers, negScalesModel300, defaultModel300]

/-- **C7 (amended).** Construction fails with a `ConfigError`, raised
before any tensor is constructed, whenever `aspect_ratios_global` and
`aspect_ratios_per_layer` are both `None`, and whenever a supplied
*non-empty* (truthy) `aspect_ratios_per_layer` list's length is not 6;
in particular `aspect_ratios_global = None` together with
`aspect_ratios_per_layer = None` raises. (An empty supplied per-layer
list is falsy in Python: the length check is skipped and
`aspect_ratios_global` is used instead — see the counterexample.) -/
theorem C7_aspect_validation (cfg : SSDConfig) :
    (cfg.aspect_ratios_global = none → cfg.aspect_ratios_per_layer = none →
      ssd_300 cfg = .error (.valueError .aspect_both_none)) ∧
    (truthy cfg.aspect_ratios_per_layer = true →
      (cfg.aspect_ratios_per_layer.getD []).length ≠ n_classifier_layers →
      ssd_300 cfg = .error (.valueError
        (.aspect_per_layer_len (cfg.aspect_ratios_per_layer.getD []).length))) := by
  constructor
  · intro hg hp
    rw [ssd_300, if_pos ⟨by simp [hg], by simp [hp]⟩]
  · intro ht hlen
    rw [ssd_300,
      if_neg (fun hcontra => by
        have hp := hcontra.2
        rw [Option.isNone_iff_eq_none] at hp
        rw [hp] at ht
        simp [truthy] at ht),
      if_pos ⟨ht, hlen⟩]

/-- A call that explicitly passes `None` for both aspect-ratio
arguments. -/
def bothNoneConfig : SSDConfig :=
  { defaultConfig 300 300 3 21 with
      aspect_ratios_global := none
      aspect_ratios_per_layer := none }

theorem C7_aspect_validation_witness :
    ssd_300 bothNoneConfig = .error (.valueError .aspect_both_none) :=
  (C7_aspect_validation bothNoneConfig).1 rfl rfl

/-- A call that supplies an empty `aspect_ratios_per_layer` (length
`0 ≠ 6`) together with a global list. -/
def emptyPerLayerConfig : SSDConfig :=
  { defaultConfig 300 300 3 21 with
      aspect_ratios_global := some [1/2, 1, 2]
      aspect_ratios_per_layer := some [] }

/-- The model built from `emptyPerLayerConfig`: the global ratio list
`[1/2, 1, 2]` is applied to all six layers. -/
def globalRatiosModel300 : SSD300Model :=
  { aspect_ratios := List.replicate 6 [1/2, 1, 2]
    n_boxes := List.replicate 6 4
    scales := [1/10, 7/30, 11/30, 1/2, 19/30, 23/30, 9/10]
    variances := [1/10, 1/10, 1/5, 1/5]
    conf_channels := [84, 84, 84, 84, 84, 84]
    loc_channels := [16, 16, 16, 16, 16, 16]
    anchor_params :=
      [⟨1/10, 7/30, [1/2, 1, 2]⟩,
       ⟨7/30, 11/30, [1/2, 1, 2]⟩,
       ⟨11/30, 1/2, [1/2, 1, 2]⟩,
       ⟨1/2, 19/30, [1/2, 1, 2]⟩,
       ⟨19/30, 23/30, [1/2, 1, 2]⟩,
       ⟨23/30, 9/10, [1/2, 1, 2]⟩]
    classifier_sizes := [(38, 38), (19, 19), (10, 10), (5, 5), (3, 3), (1, 1)] }

/-- **C7 counterexample.** `aspect_ratios_per_layer = []` has length
`0 ≠ 6`, yet no `ConfigError` is raised: the empty list is falsy, the
length check is skipped, and the global list is applied to all six
layers; construction succeeds. -/
theorem C7_counterexample_empty_per_layer :
    emptyPerLayerConfig.aspect_ratios_per_layer = some [] ∧
    (emptyPerLayerConfig.aspect_ratios_per_layer.getD []).length ≠ n_classifier_layers ∧
    ssd_300 emptyPerLayerConfig = .ok globalRatiosModel300 := by
  refine ⟨rfl, by norm_num [emptyPerLayerConfig, defaultConfig, n_classifier_layers], ?_⟩
  norm_num [ssd_300, resolveAspectRatios, resolveScales, emptyPerLayerConfig,
    defaultConfig, truthy, nBoxesOf, boxesPerLayer,
    confChannelsOf, locChannelsOf, anchorParamsOf, classifier_sizes_of,
    conv4_3_dim, fc7_dim, conv6_2_dim, conv7_2_dim, conv8_2_dim, conv9_2_dim,
    out_same, out_valid, linspace, n_classifier_layers, List.range_succ,
    globalRatiosModel300]

/-- Every row of the assembled predictions tensor has width `n + 12`. -/
theorem predictions_row_length
    (n : ℕ) (hn : 0 < n) (σ : List ℚ → List ℚ)
    (hσ : ∀ l : List ℚ, (σ l).length = l.length)
    (cs ls ps : List (Tensor3 ℚ)) (D : List (ℕ × ℕ × ℕ))
    (hwfc : wfLayers n cs D) (hwfl : wfLayers 4 ls D) (hwfp : wfLayers 8 ps D) :
    ∀ row ∈ List.zipWith (fun a b => a ++ b) ((concatReshapes n cs).map σ)
      (List.zipWith (fun a b => a ++ b) (concatReshapes 4 ls)
        (concatReshapes 8 ps)), row.length = n + 12 := by
  intro row hrow
  rw [List.mem_iff_getElem?] at hrow
  obtain ⟨i, hi⟩ := hrow
  rw [List.getElem?_zipWith] at hi
  rcases h1 : ((concatReshapes n cs).map σ)[i]? with _ | a
  · rw [h1] at hi; simp at hi
  rcases h2 : (List.zipWith (fun a b => a ++ b) (concatReshapes 4 ls)
      (concatReshapes 8 ps))[i]? with _ | bc
  · rw [h1, h2] at hi; simp at hi
  rw [h1, h2] at hi
  simp only [Option.some.injEq] at hi
  subst hi
  rw [List.getElem?_map] at h1
  rcases h1' : (concatReshapes n cs)[i]? with _ | a0
  · rw [h1'] at h1; simp at h1
  rw [h1'] at h1
  simp at h1
  subst h1
  rw [List.getElem?_zipWith] at h2
  rcases h3 : (concatReshapes 4 ls)[i]? with _ | b0
  · rw [h3] at h2; simp at h2
  rcases h4 : (concatReshapes 8 ps)[i]? with _ | c0
  · rw [h3, h4] at h2; simp at h2
  rw [h3, h4] at h2
  simp only [Option.some.injEq] at h2
  subst h2
  have ha : a0.length = n :=
    concatReshapes_row_length n hn cs D hwfc a0 (List.getElem?_mem h1')
  have hb : b0.length = 4 :=
    concatReshapes_row_length 4 (by norm_num) ls D hwfl b0 (List.getElem?_mem h3)
  have hc : c0.length = 8 :=
    concatReshapes_row_length 8 (by norm_num) ps D hwfp c0 (List.getElem?_mem h4)
  simp only [List.length_append, hσ, ha, hb, hc]

/-- A constant `(h, w, d)` tensor. -/
def repT (h w d : ℕ) : Tensor3 ℚ :=
  List.replicate h (List.replicate w (List.replicate d 0))

theorem wf3_repT (h w d : ℕ) : wf3 h w d (repT h w d) := by
  refine ⟨by simp [repT], ?_⟩
  intro row hrow
  rw [List.eq_of_mem_replicate hrow]
  refine ⟨by simp, ?_⟩
  intro cell hcell
  rw [List.eq_of_mem_replicate hcell]
  simp

/-- **C8.** For `image_size = (300, 300, 3)`, `n_classes = 21` and the
default `aspect_ratios_per_layer` with `two_boxes_for_ar1` (4,6,6,6,4,4
boxes per cell), the six classifier grids are
(38,38), (19,19), (10,10), (5,5), (3,3), (1,1) in layer order, the
total box count is `4·38² + 6·19² + 6·10² + 6·5² + 4·3² + 4·1² = 8732`,
and every assembled prediction tensor of that configuration has 8732
box rows of width `21 + 12 = 33`. -/
theorem C8_default_output_shape :
    ssd_300 (defaultConfig 300 300 3 21) = .ok defaultModel300 ∧
    defaultModel300.classifier_sizes =
      [(38, 38), (19, 19), (10, 10), (5, 5), (3, 3), (1, 1)] ∧
    defaultModel300.n_boxes = [4, 6, 6, 6, 4, 4] ∧
    total_boxes defaultModel300 = 8732 ∧
    4 * 38 ^ 2 + 6 * 19 ^ 2 + 6 * 10 ^ 2 + 6 * 5 ^ 2 + 4 * 3 ^ 2 + 4 * 1 ^ 2 = 8732 ∧
    ∀ (σ : List ℚ → List ℚ), (∀ l, (σ l).length = l.length) →
    ∀ c1 c2 c3 c4 c5 c6 l1 l2 l3 l4 l5 l6 p1 p2 p3 p4 p5 p6 : Tensor3 ℚ,
      wf3 38 38 (4 * 21) c1 → wf3 19 19 (6 * 21) c2 → wf3 10 10 (6 * 21) c3 →
      wf3 5 5 (6 * 21) c4 → wf3 3 3 (4 * 21) c5 → wf3 1 1 (4 * 21) c6 →
      wf3 38 38 (4 * 4) l1 → wf3 19 19 (6 * 4) l2 → wf3 10 10 (6 * 4) l3 →
      wf3 5 5 (6 * 4) l4 → wf3 3 3 (4 * 4) l5 → wf3 1 1 (4 * 4) l6 →
      wf3 38 38 (4 * 8) p1 → wf3 19 19 (6 * 8) p2 → wf3 10 10 (6 * 8) p3 →
      wf3 5 5 (6 * 8) p4 → wf3 3 3 (4 * 8) p5 → wf3 1 1 (4 * 8) p6 →
      (predictions σ 21 c1 c2 c3 c4 c5 c6 l1 l2 l3 l4 l5 l6
        p1 p2 p3 p4 p5 p6).length = 8732 ∧
      ∀ row ∈ predictions σ 21 c1 c2 c3 c4 c5 c6 l1 l2 l3 l4 l5 l6
        p1 p2 p3 p4 p5 p6, row.length = 21 + 12 := by
  refine ⟨ssd_300_default_eval, rfl, rfl,
    by norm_num [total_boxes, defaultModel300], by norm_num, ?_⟩
  intro σ hσ c1 c2 c3 c4 c5 c6 l1 l2 l3 l4 l5 l6 p1 p2 p3 p4 p5 p6
  intro hc1 hc2 hc3 hc4 hc5 hc6 hl1 hl2 hl3 hl4 hl5 hl6 hp1 hp2 hp3 hp4 hp5 hp6
  have hwfc : wfLayers 21 [c1, c2, c3, c4, c5, c6]
      [(38, 38, 4), (19, 19, 6), (10, 10, 6), (5, 5, 6), (3, 3, 4), (1, 1, 4)] :=
    .cons hc1 (.cons hc2 (.cons hc3 (.cons hc4 (.cons hc5 (.cons hc6 .nil)))))
  have hwfl : wfLayers 4 [l1, l2, l3, l4, l5, l6]
      [(38, 38, 4), (19, 19, 6), (10, 10, 6), (5, 5, 6), (3, 3, 4), (1, 1, 4)] :=
    .cons hl1 (.cons hl2 (.cons hl3 (.cons hl4 (.cons hl5 (.cons hl6 .nil)))))
  have hwfp : wfLayers 8 [p1, p2, p3, p4, p5, p6]
      [(38, 38, 4), (19, 19, 6), (10, 10, 6), (5, 5, 6), (3, 3, 4), (1, 1, 4)] :=
    .cons hp1 (.cons hp2 (.cons hp3 (.cons hp4 (.cons hp5 (.cons hp6 .nil)))))
  have hpredEq : predictions σ 21 c1 c2 c3 c4 c5 c6 l1 l2 l3 l4 l5 l6
      p1 p2 p3 p4 p5 p6 =
      List.zipWith (fun a b => a ++ b)
        ((concatReshapes 21 [c1, c2, c3, c4, c5, c6]).map σ)
        (List.zipWith (fun a b => a ++ b)
          (concatReshapes 4 [l1, l2, l3, l4, l5, l6])
          (concatReshapes 8 [p1, p2, p3, p4, p5, p6])) := by
    rw [predictions, mbox_conf_eq_concat, mbox_loc_eq_concat, mbox_priorbox_eq_concat]
  constructor
  · rw [hpredEq, List.length_zipWith, List.length_map, List.length_zipWith,
      concatReshapes_length 21 (by norm_num) _ _ hwfc,
      concatReshapes_length 4 (by norm_num) _ _ hwfl,
      concatReshapes_length 8 (by norm_num) _ _ hwfp]
    norm_num [layerBoxCount]
  · rw [hpredEq]
    exact predictions_row_length 21 (by norm_num) σ hσ _ _ _ _ hwfc hwfl hwfp

theorem C8_default_output_shape_witness :
    total_boxes defaultModel300 = 8732 ∧
    (predictions (fun l : List ℚ => l) 21
      (repT 38 38 (4 * 21)) (repT 19 19 (6 * 21)) (repT 10 10 (6 * 21))
      (repT 5 5 (6 * 21)) (repT 3 3 (4 * 21)) (repT 1 1 (4 * 21))
      (repT 38 38 (4 * 4)) (repT 19 19 (6 * 4)) (repT 10 10 (6 * 4))
      (repT 5 5 (6 * 4)) (repT 3 3 (4 * 4)) (repT 1 1 (4 * 4))
      (repT 38 38 (4 * 8)) (repT 19 19 (6 * 8)) (repT 10 10 (6 * 8))
      (repT 5 5 (6 * 8)) (repT 3 3 (4 * 8)) (repT 1 1 (4 * 8))).length = 8732 :=
  ⟨C8_default_output_shape.2.2.2.1,
    (C8_default_output_shape.2.2.2.2.2 (fun l => l) (fun _ => rfl)
      _ _ _ _ _ _ _ _ _ _ _ _ _ _ _ _ _ _
      (wf3_repT 38 38 (4 * 21)) (wf3_repT 19 19 (6 * 21)) (wf3_repT 10 10 (6 * 21))
      (wf3_repT 5 5 (6 * 21)) (wf3_repT 3 3 (4 * 21)) (wf3_repT 1 1 (4 * 21))
      (wf3_repT 38 38 (4 * 4)) (wf3_repT 19 19 (6 * 4)) (wf3_repT 10 10 (6 * 4))
      (wf3_repT 5 5 (6 * 4)) (wf3_repT 3 3 (4 * 4)) (wf3_repT 1 1 (4 * 4))
      (wf3_repT 38 38 (4 * 8)) (wf3_repT 19 19 (6 * 8)) (wf3_repT 10 10 (6 * 8))
      (wf3_repT 5 5 (6 * 8)) (wf3_repT 3 3 (4 * 8)) (wf3_repT 1 1 (4 * 8))).1⟩

/-- **C9.** Model construction (anchor parameters and assembly wiring
included) is a pure, deterministic function of its configuration
arguments: two calls with identical inputs produce identical models —
anchor parameters and `classifier_sizes` included. In this embedding
`ssd_300` is a total function of the configuration alone; this is
faithful to the source, which reads no global mutable state and uses no
randomness, time, or I/O between lines 8 and 322. -/
theorem C9_deterministic_construction (cfg₁ cfg₂ : SSDConfig) (h : cfg₁ = cfg₂) :
    ssd_300 cfg₁ = ssd_300 cfg₂ ∧
    (∀ m₁ m₂, ssd_300 cfg₁ = .ok m₁ → ssd_300 cfg₂ = .ok m₂ →
      m₁.anchor_params = m₂.anchor_params ∧
      m₁.classifier_sizes = m₂.classifier_sizes) := by
  subst h
  refine ⟨rfl, ?_⟩
  intro m₁ m₂ h₁ h₂
  rw [h₁] at h₂
  have : m₁ = m₂ := by injection h₂
  rw [this]
  exact ⟨rfl, rfl⟩

theorem C9_deterministic_construction_witness :
    ssd_300 (defaultConfig 300 300 3 21) = ssd_300 (defaultConfig 300 300 3 21) :=
  (C9_deterministic_construction (defaultConfig 300 300 3 21)
    (defaultConfig 300 300 3 21) rfl).1

theorem resolveAspectRatios_error (cfg : SSDConfig) (e : PyExn)
    (h : resolveAspectRatios cfg = .error e) : e = .typeError := by
  unfold resolveAspectRatios at h
  split at h
  · exact absurd h (by simp)
  split at h
  · exact absurd h (by simp)
  · simp only [Except.error.injEq] at h
    exact h.symm

theorem resolveScales_error (cfg : SSDConfig) (e : PyExn)
    (h : resolveScales cfg = .error e) :
    e = .typeError ∨ ∃ k, e = .valueError (.scales_len k) := by
  unfold resolveScales at h
  split at h
  · split at h
    · simp only [Except.error.injEq] at h
      exact .inr ⟨_, h.symm⟩
    · exact absurd h (by simp)
  · split at h
    · exact absurd h (by simp)
    · simp only [Except.error.injEq] at h
      exact .inl h.symm

/-- **C10.** `aspect_ratios_per_layer` defaults to a non-`None` list
equal to the original SSD300 per-layer ratios, so a caller who omits
both aspect-ratio arguments gets a successfully constructed model using
those defaults; the "both absent" `ConfigError` can only be triggered
by explicitly passing `None` for both `aspect_ratios_global` and
`aspect_ratios_per_layer`. -/
theorem C10_mutable_default_per_layer :
    (defaultConfig 300 300 3 21).aspect_ratios_per_layer =
      some default_aspect_ratios_per_layer ∧
    default_aspect_ratios_per_layer =
      [[1/2, 1, 2], [1/3, 1/2, 1, 2, 3], [1/3, 1/2, 1, 2, 3],
       [1/3, 1/2, 1, 2, 3], [1/2, 1, 2], [1/2, 1, 2]] ∧
    (∃ m, ssd_300 (defaultConfig 300 300 3 21) = .ok m ∧
      m.aspect_ratios = default_aspect_ratios_per_layer) ∧
    (∀ cfg : SSDConfig, ssd_300 cfg = .error (.valueError .aspect_both_none) →
      cfg.aspect_ratios_global = none ∧ cfg.aspect_ratios_per_layer = none) := by
  refine ⟨rfl, rfl, ⟨defaultModel300, ssd_300_default_eval, rfl⟩, ?_⟩
  intro cfg h
  unfold ssd_300 at h
  split at h
  next hcond =>
    exact ⟨Option.isNone_iff_eq_none.mp hcond.1, Option.isNone_iff_eq_none.mp hcond.2⟩
  split at h
  · exact absurd h (by simp)
  split at h
  next e he =>
    rw [resolveAspectRatios_error cfg e he] at h
    exact absurd h (by simp)
  next ars hars =>
    split at h
    · exact absurd h (by simp)
    split at h
    next e he =>
      rcases resolveScales_error cfg e he with he' | ⟨k, he'⟩ <;>
        rw [he'] at h <;> exact absurd h (by simp)
    next sc hsc =>
      split at h
      · exact absurd h (by simp)
      split at h
      · exact absurd h (by simp)
      · exact absurd h (by simp)

theorem C10_mutable_default_per_layer_witness :
    (defaultConfig 300 300 3 21).aspect_ratios_per_layer =
      some default_aspect_ratios_per_layer :=
  C10_mutable_default_per_layer.1
